import Mathlib

/-
Verification development for the MomentumRankStrategy of this repository
(user_data/strategies/MomentumRankStrategy.py).

The strategy is embedded shallowly:

* Python/numpy floats are modelled by `PyFloat`: an exact rational together
  with the three IEEE special values +inf, -inf and NaN.  The only float
  operation the strategy performs is the momentum formula
  `(close[i] - close[i-L]) / close[i-L] * 100` on finite close prices, whose
  IEEE result is captured exactly by `momentumVal` (division by zero yields
  an infinity or NaN, never an exception); all close prices are finite.
* The data provider `self.dp` is modelled by `Snapshot`: the current
  whitelist together with the close column of every pair's dataframe.
* A pandas dataframe is modelled by `DataFrame`: one list per column.
* Python `sorted(xs, key=lambda x: x[1], reverse=True)` on NaN-free values
  is a stable descending sort; `sortDesc` is a stable descending insertion
  sort and therefore agrees with it on every list whose momenta are
  NaN-free and totally ordered (every concrete list used below is such).
-/

namespace MomentumRank

/-- A Python/numpy double: an exact rational or one of the IEEE special
values.  Close prices are always finite; only the momentum computation can
produce the special values. -/
inductive PyFloat
  | finite (q : ℚ)
  | pinf
  | ninf
  | nan
deriving DecidableEq

/-- IEEE strict less-than on `PyFloat`: NaN compares false with everything,
-inf is below every number and +inf, +inf is above every number. -/
def PyFloat.lt : PyFloat → PyFloat → Prop
  | .finite a, .finite b => a < b
  | .ninf, .finite _ => True
  | .ninf, .pinf => True
  | .finite _, .pinf => True
  | _, _ => False

instance PyFloat.decLt : ∀ a b : PyFloat, Decidable (PyFloat.lt a b) := by
  intro a b
  cases a <;> cases b <;> simp only [PyFloat.lt] <;> infer_instance

/-- The value of `(a - b) / b * 100` computed on numpy doubles when `a` and
`b` are the two (finite) close prices: ordinary rational arithmetic when the
denominator is nonzero, and the IEEE division-by-zero results otherwise
(0/0 is NaN, x/0 is a sign-matching infinity; no exception is raised). -/
def momentumVal (a b : ℚ) : PyFloat :=
  if b = 0 then
    if a = 0 then PyFloat.nan
    else if 0 < a then PyFloat.pinf
    else PyFloat.ninf
  else PyFloat.finite ((a - b) / b * 100)

/-- The data provider (`self.dp`): `current_whitelist()` and, for every
pair, the close column of `get_pair_dataframe(pair, timeframe)`.  The
whitelist is duplicate-free in freqtrade; theorems that need this state it
as a hypothesis. -/
structure Snapshot where
  current_whitelist : List String
  closes : String → List ℚ

/-- A pandas dataframe, one list per column.  `open` is a Lean keyword, so
that column is called `open_col`. -/
structure DataFrame where
  open_col : List ℚ
  high : List ℚ
  low : List ℚ
  close : List ℚ
  volume : List ℚ
  momentum : List PyFloat
  enter_long : List ℕ
  enter_short : List ℕ
  exit_long : List ℕ
  exit_short : List ℕ

/-- `len(dataframe)`: the row count, read off the close column. -/
def DataFrame.numRows (df : DataFrame) : ℕ := df.close.length

/-- A dataframe holding only price/signal data, used for concrete inputs. -/
def mkDF (close : List ℚ) (eL eS : List ℕ) : DataFrame :=
  ⟨[], [], [], close, [], [], eL, eS, [], []⟩

/-- Strategy class attribute `LOOKBACK_PERIOD = 12`. -/
def LOOKBACK_PERIOD : ℕ := 12

/-- Strategy class attribute `TOP_N = 2`. -/
def TOP_N : ℕ := 2

/-- Strategy class attribute `HOLDING_PERIOD = 1` (days). -/
def HOLDING_PERIOD : ℕ := 1

/-- Strategy class attribute `timeframe = "30m"`. -/
def timeframe : String := "30m"

/-- `populate_indicators` (lines 49-57): the momentum column
`(close - close.shift(L)) / close.shift(L) * 100`.  The shifted column is
NaN at the first `L` rows, and NaN propagates through the formula, so rows
`i < L` hold NaN; at every later row both operands are the finite closes at
`i` and `i - L`. -/
def populate_indicators (L : ℕ) (df : DataFrame) : DataFrame :=
  { df with
    momentum := (List.range df.numRows).map (fun i =>
      if i < L then PyFloat.nan
      else momentumVal (df.close.getD i 0) (df.close.getD (i - L) 0)) }

/-- The momentum the entry loop computes for pair `p` at bar `i`
(lines 80-87): `(close.iloc[i] - close.iloc[i-L]) / close.iloc[i-L] * 100`
on the pair's own dataframe from the data provider. -/
def momentum_at (snap : Snapshot) (L i : ℕ) (p : String) : PyFloat :=
  momentumVal ((snap.closes p).getD i 0) ((snap.closes p).getD (i - L) 0)

/-- The dict `all_pairs_momentum` built at bar `i` (lines 76-88): every
whitelisted pair whose dataframe has more than `i` rows, with its momentum,
in whitelist order (a Python dict preserves insertion order, and the
whitelist has no duplicate pairs). -/
def all_pairs_momentum (snap : Snapshot) (L i : ℕ) : List (String × PyFloat) :=
  (snap.current_whitelist.filter (fun p => decide (i < (snap.closes p).length))).map
    (fun p => (p, momentum_at snap L i p))

/-- Stable insertion of one pair into a descending list: the new element
passes every strictly greater momentum and stops before the first momentum
not greater than its own, so earlier elements stay in front on ties. -/
def insertDesc (x : String × PyFloat) : List (String × PyFloat) → List (String × PyFloat)
  | [] => [x]
  | y :: ys => if PyFloat.lt x.2 y.2 then y :: insertDesc x ys else x :: y :: ys

/-- Stable descending insertion sort: the model of
`sorted(all_pairs_momentum.items(), key=lambda x: x[1], reverse=True)`
(line 92) on NaN-free momenta. -/
def sortDesc : List (String × PyFloat) → List (String × PyFloat)
  | [] => []
  | x :: xs => insertDesc x (sortDesc xs)

/-- `sorted_pairs` at bar `i` (line 92). -/
def sorted_pairs (snap : Snapshot) (L i : ℕ) : List (String × PyFloat) :=
  sortDesc (all_pairs_momentum snap L i)

/-- `top_n = [p[0] for p in sorted_pairs[:TOP_N]]` (line 93). -/
def top_n (snap : Snapshot) (L N i : ℕ) : List String :=
  ((sorted_pairs snap L i).take N).map Prod.fst

/-- The Python slice `l[-N:]`: the last `N` elements, except that `l[-0:]`
is the whole list. -/
def lastSlice (N : ℕ) (l : List (String × PyFloat)) : List (String × PyFloat) :=
  if N = 0 then l else l.drop (l.length - N)

/-- `bottom_n = [p[0] for p in sorted_pairs[-TOP_N:]]` (line 94). -/
def bottom_n (snap : Snapshot) (L N i : ℕ) : List String :=
  (lastSlice N (sorted_pairs snap L i)).map Prod.fst

/-- `populate_entry_trend` (lines 59-145).  Both signal columns start at 0;
when `len(dataframe) <= L` the function returns immediately; otherwise the
loop over `i in range(L, len(dataframe))` sets `enter_long[i] = 1` when the
current pair is in `top_n` at bar `i` and `enter_short[i] = 1` when it is in
`bottom_n` at bar `i` (two independent `if`s, lines 121 and 133).  The
`if all_pairs_momentum:` guard and the early return are absorbed into the
row-wise form: membership in the top/bottom of an empty ranking is false,
and when `numRows <= L` no row satisfies `L <= i`.  The logging branches
taken at the last bar write no signal. -/
def populate_entry_trend (snap : Snapshot) (L N : ℕ) (pair : String) (df : DataFrame) :
    DataFrame :=
  { df with
    enter_long := (List.range df.numRows).map (fun i =>
      if L ≤ i ∧ pair ∈ top_n snap L N i then 1 else 0),
    enter_short := (List.range df.numRows).map (fun i =>
      if L ≤ i ∧ pair ∈ bottom_n snap L N i then 1 else 0) }

/-- Python `int(tf[:-1])` for a digits-then-unit timeframe string such as
`"30m"`: the decimal value of all characters but the last. -/
def timeframe_minutes (tf : String) : ℕ :=
  tf.data.dropLast.foldl (fun n c => n * 10 + (c.toNat - 48)) 0

/-- Line 153: `holding_periods = HOLDING_PERIOD * 24 * 60 // int(timeframe[:-1])`. -/
def holding_periods_of (days : ℕ) (tf : String) : ℕ :=
  days * 24 * 60 / timeframe_minutes tf

/-- The exit loop of lines 149-161, with the bar count `holding_periods`
already computed: both exit columns start at 0, and for every row
`i >= holding_periods` the exit flag is set when the matching entry flag was
1 at row `i - holding_periods`. -/
def exit_signals (holding_periods : ℕ) (df : DataFrame) : DataFrame :=
  { df with
    exit_long := (List.range df.numRows).map (fun i =>
      if holding_periods ≤ i ∧ df.enter_long.getD (i - holding_periods) 0 = 1 then 1 else 0),
    exit_short := (List.range df.numRows).map (fun i =>
      if holding_periods ≤ i ∧ df.enter_short.getD (i - holding_periods) 0 = 1 then 1 else 0) }

/-- `populate_exit_trend` (lines 147-163): the exit loop run with
`holding_periods` derived from the class attributes. -/
def populate_exit_trend (days : ℕ) (tf : String) (df : DataFrame) : DataFrame :=
  exit_signals (holding_periods_of days tf) df

end MomentumRank

namespace MomentumRank

/- ### General lemmas about the embedded operations -/

lemma getD_map_range (f : ℕ → ℕ) {n i : ℕ} (hi : i < n) :
    ((List.range n).map f).getD i 0 = f i := by
  simp [List.getD_eq_getElem?_getD, List.getElem?_map, List.getElem?_range, hi]

lemma getElem?_map_range {α : Type} (f : ℕ → α) {n i : ℕ} (hi : i < n) :
    ((List.range n).map f)[i]? = some (f i) := by
  simp [List.getElem?_map, List.getElem?_range, hi]

lemma enter_long_col (snap : Snapshot) (L N : ℕ) (pair : String) (df : DataFrame) :
    (populate_entry_trend snap L N pair df).enter_long
      = (List.range df.numRows).map (fun i =>
          if L ≤ i ∧ pair ∈ top_n snap L N i then 1 else 0) := rfl

lemma enter_short_col (snap : Snapshot) (L N : ℕ) (pair : String) (df : DataFrame) :
    (populate_entry_trend snap L N pair df).enter_short
      = (List.range df.numRows).map (fun i =>
          if L ≤ i ∧ pair ∈ bottom_n snap L N i then 1 else 0) := rfl

lemma exit_long_col (hp : ℕ) (df : DataFrame) :
    (exit_signals hp df).exit_long
      = (List.range df.numRows).map (fun i =>
          if hp ≤ i ∧ df.enter_long.getD (i - hp) 0 = 1 then 1 else 0) := rfl

lemma exit_short_col (hp : ℕ) (df : DataFrame) :
    (exit_signals hp df).exit_short
      = (List.range df.numRows).map (fun i =>
          if hp ≤ i ∧ df.enter_short.getD (i - hp) 0 = 1 then 1 else 0) := rfl

lemma enter_long_value (snap : Snapshot) (L N : ℕ) (pair : String) (df : DataFrame)
    {i : ℕ} (hi : i < df.numRows) :
    (populate_entry_trend snap L N pair df).enter_long.getD i 0
      = if L ≤ i ∧ pair ∈ top_n snap L N i then 1 else 0 := by
  rw [enter_long_col]; exact getD_map_range _ hi

lemma enter_short_value (snap : Snapshot) (L N : ℕ) (pair : String) (df : DataFrame)
    {i : ℕ} (hi : i < df.numRows) :
    (populate_entry_trend snap L N pair df).enter_short.getD i 0
      = if L ≤ i ∧ pair ∈ bottom_n snap L N i then 1 else 0 := by
  rw [enter_short_col]; exact getD_map_range _ hi

lemma exit_long_value (hp : ℕ) (df : DataFrame) {i : ℕ} (hi : i < df.numRows) :
    (exit_signals hp df).exit_long.getD i 0
      = if hp ≤ i ∧ df.enter_long.getD (i - hp) 0 = 1 then 1 else 0 := by
  rw [exit_long_col]; exact getD_map_range _ hi

lemma exit_short_value (hp : ℕ) (df : DataFrame) {i : ℕ} (hi : i < df.numRows) :
    (exit_signals hp df).exit_short.getD i 0
      = if hp ≤ i ∧ df.enter_short.getD (i - hp) 0 = 1 then 1 else 0 := by
  rw [exit_short_col]; exact getD_map_range _ hi

lemma momentum_value (L : ℕ) (df : DataFrame) {i : ℕ} (hi : i < df.numRows) :
    (populate_indicators L df).momentum[i]?
      = some (if i < L then PyFloat.nan
              else momentumVal (df.close.getD i 0) (df.close.getD (i - L) 0)) := by
  have : (populate_indicators L df).momentum
      = (List.range df.numRows).map (fun i =>
          if i < L then PyFloat.nan
          else momentumVal (df.close.getD i 0) (df.close.getD (i - L) 0)) := rfl
  rw [this]; exact getElem?_map_range _ hi

lemma insertDesc_perm (x : String × PyFloat) (l : List (String × PyFloat)) :
    (insertDesc x l).Perm (x :: l) := by
  induction l with
  | nil => exact List.Perm.refl _
  | cons y ys ih =>
    rw [insertDesc]
    split
    · exact (ih.cons y).trans (List.Perm.swap x y ys)
    · exact List.Perm.refl _

lemma sortDesc_perm (l : List (String × PyFloat)) : (sortDesc l).Perm l := by
  induction l with
  | nil => exact List.Perm.refl _
  | cons x xs ih => exact (insertDesc_perm x (sortDesc xs)).trans (ih.cons x)

lemma apm_keys (snap : Snapshot) (L i : ℕ) :
    (all_pairs_momentum snap L i).map Prod.fst
      = snap.current_whitelist.filter (fun p => decide (i < (snap.closes p).length)) := by
  rw [all_pairs_momentum, List.map_map]
  have hid : (Prod.fst ∘ fun p => (p, momentum_at snap L i p)) = id := rfl
  rw [hid, List.map_id]

lemma mem_ranking_iff (snap : Snapshot) (L i : ℕ) (p : String) :
    p ∈ (sorted_pairs snap L i).map Prod.fst ↔
      p ∈ snap.current_whitelist ∧ i + 1 ≤ (snap.closes p).length := by
  rw [sorted_pairs, ((sortDesc_perm (all_pairs_momentum snap L i)).map Prod.fst).mem_iff,
    apm_keys, List.mem_filter]
  simp [Nat.succ_le_iff]

lemma nodup_ranking_keys (snap : Snapshot) (L i : ℕ)
    (h : snap.current_whitelist.Nodup) :
    ((sorted_pairs snap L i).map Prod.fst).Nodup := by
  rw [sorted_pairs, ((sortDesc_perm (all_pairs_momentum snap L i)).map Prod.fst).nodup_iff,
    apm_keys]
  exact h.filter _

lemma mem_take_of_le {α : Type} {l : List α} {m n : ℕ} (h : m ≤ n) {x : α}
    (hx : x ∈ l.take m) : x ∈ l.take n := by
  have heq : l.take m = (l.take n).take m := by
    rw [List.take_take, Nat.min_eq_left h]
  rw [heq] at hx
  exact List.take_subset _ _ hx

lemma disjoint_take_lastSlice {l : List (String × PyFloat)} {N : ℕ}
    (hnd : (l.map Prod.fst).Nodup) (h2 : 2 * N ≤ l.length) {p : String}
    (ht : p ∈ (l.take N).map Prod.fst) : p ∉ (lastSlice N l).map Prod.fst := by
  rcases Nat.eq_zero_or_pos N with hN | hN
  · subst hN; simp at ht
  rw [lastSlice, if_neg (by omega)]
  rw [List.map_take] at ht
  rw [List.map_drop]
  set K := l.map Prod.fst with hK
  have hlenK : K.length = l.length := List.length_map l Prod.fst
  have hsplit : (K.take (K.length - N) ++ K.drop (K.length - N)).Nodup := by
    rw [List.take_append_drop]; exact hnd
  have hdisj := (List.nodup_append.mp hsplit).2.2
  have ht2 : p ∈ K.take (K.length - N) := mem_take_of_le (by omega) ht
  intro hb
  rw [← hlenK] at hb
  exact hdisj ht2 hb

lemma lastSlice_length_le {l : List (String × PyFloat)} {N : ℕ} (hN : 1 ≤ N) :
    (lastSlice N l).length ≤ N := by
  rw [lastSlice, if_neg (by omega), List.length_drop]
  omega

lemma take_eq_length_iff {l1 l2 : List ℚ} {i : ℕ}
    (h : l1.take (i + 1) = l2.take (i + 1)) : i < l1.length ↔ i < l2.length := by
  have hl := congrArg List.length h
  simp only [List.length_take] at hl
  omega

lemma take_eq_getD {l1 l2 : List ℚ} {i j : ℕ} (h : l1.take (i + 1) = l2.take (i + 1))
    (hj : j ≤ i) : l1.getD j 0 = l2.getD j 0 := by
  have h1 : (l1.take (i + 1))[j]? = (l2.take (i + 1))[j]? := by rw [h]
  have hj2 : j < i + 1 := by omega
  rw [List.getElem?_take, List.getElem?_take, if_pos hj2, if_pos hj2] at h1
  simp [List.getD_eq_getElem?_getD, h1]

lemma apm_take_agree (s1 s2 : Snapshot) (L i : ℕ)
    (hu : s1.current_whitelist = s2.current_whitelist)
    (hc : ∀ p ∈ s1.current_whitelist,
      (s1.closes p).take (i + 1) = (s2.closes p).take (i + 1)) :
    all_pairs_momentum s1 L i = all_pairs_momentum s2 L i := by
  rw [all_pairs_momentum, all_pairs_momentum, ← hu]
  have hf : s1.current_whitelist.filter (fun p => decide (i < (s1.closes p).length))
      = s1.current_whitelist.filter (fun p => decide (i < (s2.closes p).length)) :=
    List.filter_congr (fun p hp => by
      rw [decide_eq_decide]
      exact take_eq_length_iff (hc p hp))
  rw [hf]
  apply List.map_congr_left
  intro p hp
  have hpw : p ∈ s1.current_whitelist := (List.mem_filter.mp hp).1
  have hmom : momentum_at s1 L i p = momentum_at s2 L i p := by
    rw [momentum_at, momentum_at, take_eq_getD (hc p hpw) (le_refl i),
      take_eq_getD (hc p hpw) (Nat.sub_le i L)]
  rw [hmom]

end MomentumRank

namespace MomentumRank

/- ### Concrete inputs -/

/-- The four-instrument universe of the concrete scenario in the spec
(lookback 2, N 1): closes of A, B, C, D at bars 0..4. -/
def scen3 : Snapshot :=
  ⟨["A", "B", "C", "D"], fun p =>
    if p = "A" then [10, 10, 12, 15, 20]
    else if p = "B" then [10, 11, 10, 9, 8]
    else if p = "C" then [10, 10, 10, 10, 10]
    else if p = "D" then [10, 9, 9, 9, 9]
    else []⟩

lemma scen3wl : scen3.current_whitelist = ["A", "B", "C", "D"] := rfl

lemma scen3A : scen3.closes "A" = [10, 10, 12, 15, 20] := by decide

lemma scen3B : scen3.closes "B" = [10, 11, 10, 9, 8] := by decide

lemma scen3C : scen3.closes "C" = [10, 10, 10, 10, 10] := by decide

lemma scen3D : scen3.closes "D" = [10, 9, 9, 9, 9] := by decide

/-- At bar 2 with lookback 2 the code reads closes at indices 2 and 0, so
the momenta are A = (12-10)/10*100 = 20, B = (10-10)/10*100 = 0,
C = 0 and D = (9-10)/10*100 = -10. -/
lemma scen3_apm2 : all_pairs_momentum scen3 2 2 =
    [("A", PyFloat.finite 20), ("B", PyFloat.finite 0),
     ("C", PyFloat.finite 0), ("D", PyFloat.finite (-10))] := by
  norm_num [all_pairs_momentum, momentum_at, momentumVal, scen3wl,
    scen3A, scen3B, scen3C, scen3D]

lemma scen3_sorted2 : sorted_pairs scen3 2 2 =
    [("A", PyFloat.finite 20), ("B", PyFloat.finite 0),
     ("C", PyFloat.finite 0), ("D", PyFloat.finite (-10))] := by
  rw [sorted_pairs, scen3_apm2]
  norm_num [sortDesc, insertDesc, PyFloat.lt]

lemma scen3_top2 : top_n scen3 2 1 2 = ["A"] := by
  rw [top_n, scen3_sorted2]; rfl

lemma scen3_bot2 : bottom_n scen3 2 1 2 = ["D"] := by
  rw [bottom_n, scen3_sorted2]; rfl

/-- At bar 3 the code reads closes at indices 3 and 1. -/
lemma scen3_apm3 : all_pairs_momentum scen3 2 3 =
    [("A", PyFloat.finite 50), ("B", PyFloat.finite (-200/11)),
     ("C", PyFloat.finite 0), ("D", PyFloat.finite 0)] := by
  norm_num [all_pairs_momentum, momentum_at, momentumVal, scen3wl,
    scen3A, scen3B, scen3C, scen3D]

lemma scen3_sorted3 : sorted_pairs scen3 2 3 =
    [("A", PyFloat.finite 50), ("C", PyFloat.finite 0),
     ("D", PyFloat.finite 0), ("B", PyFloat.finite (-200/11))] := by
  rw [sorted_pairs, scen3_apm3]
  norm_num [sortDesc, insertDesc, PyFloat.lt]

lemma scen3_top3 : top_n scen3 2 1 3 = ["A"] := by
  rw [top_n, scen3_sorted3]; rfl

lemma scen3_bot3 : bottom_n scen3 2 1 3 = ["B"] := by
  rw [bottom_n, scen3_sorted3]; rfl

/-- The dataframe of pair A in the scenario. -/
def dfA3 : DataFrame := mkDF [10, 10, 12, 15, 20] [] []

/-- The dataframe of pair B in the scenario. -/
def dfB3 : DataFrame := mkDF [10, 11, 10, 9, 8] [] []

/-- The dataframe of pair D in the scenario. -/
def dfD3 : DataFrame := mkDF [10, 9, 9, 9, 9] [] []

/-- A one-instrument universe (smaller than 2N for N = 2). -/
def scen5 : Snapshot := ⟨["A"], fun p => if p = "A" then [10, 10, 12] else []⟩

/-- The dataframe of the single pair of `scen5`. -/
def dfA5 : DataFrame := mkDF [10, 10, 12] [] []

lemma scen5wl : scen5.current_whitelist = ["A"] := rfl

lemma scen5A : scen5.closes "A" = [10, 10, 12] := by decide

lemma scen5_apm2 : all_pairs_momentum scen5 2 2 = [("A", PyFloat.finite 20)] := by
  norm_num [all_pairs_momentum, momentum_at, momentumVal, scen5wl, scen5A]

lemma scen5_sorted2 : sorted_pairs scen5 2 2 = [("A", PyFloat.finite 20)] := by
  rw [sorted_pairs, scen5_apm2]; rfl

lemma scen5_top2 : top_n scen5 2 2 2 = ["A"] := by
  rw [top_n, scen5_sorted2]; rfl

lemma scen5_bot2 : bottom_n scen5 2 2 2 = ["A"] := by
  rw [bottom_n, scen5_sorted2]; rfl

/-- A universe in which pair X has a zero close at the lookback index of
bar 2 (and a positive close at bar 2). -/
def scen6 : Snapshot :=
  ⟨["X", "Y"], fun p =>
    if p = "X" then [0, 0, 10]
    else if p = "Y" then [10, 10, 10]
    else []⟩

/-- The dataframe of pair X of `scen6`. -/
def dfX6 : DataFrame := mkDF [0, 0, 10] [] []

lemma scen6wl : scen6.current_whitelist = ["X", "Y"] := rfl

lemma scen6X : scen6.closes "X" = [0, 0, 10] := by decide

lemma scen6Y : scen6.closes "Y" = [10, 10, 10] := by decide

/-- X's momentum at bar 2 is (10 - 0) / 0 * 100 = +inf, which is
comparable and sorts above every finite momentum. -/
lemma scen6_apm2 : all_pairs_momentum scen6 2 2 =
    [("X", PyFloat.pinf), ("Y", PyFloat.finite 0)] := by
  norm_num [all_pairs_momentum, momentum_at, momentumVal, scen6wl, scen6X, scen6Y]

lemma scen6_sorted2 : sorted_pairs scen6 2 2 =
    [("X", PyFloat.pinf), ("Y", PyFloat.finite 0)] := by
  rw [sorted_pairs, scen6_apm2]
  norm_num [sortDesc, insertDesc, PyFloat.lt]

lemma scen6_top2 : top_n scen6 2 1 2 = ["X"] := by
  rw [top_n, scen6_sorted2]; rfl

/-- Two provider snapshots that agree on all bars up to index 2 and differ
afterwards (the second has one extra bar): used to witness the
no-lookahead theorem. -/
def snap7a : Snapshot := ⟨["A"], fun p => if p = "A" then [10, 10, 12] else []⟩

/-- Second snapshot for the no-lookahead witness: one extra bar. -/
def snap7b : Snapshot := ⟨["A"], fun p => if p = "A" then [10, 10, 12, 99] else []⟩

/-- Current-pair dataframe matching `snap7a`. -/
def df7a : DataFrame := mkDF [10, 10, 12] [] []

/-- Current-pair dataframe matching `snap7b`. -/
def df7b : DataFrame := mkDF [10, 10, 12, 99] [] []

/-- A three-bar single-pair snapshot, shorter than the lookback 12. -/
def snap9 : Snapshot := ⟨["A"], fun p => if p = "A" then [10, 10, 10] else []⟩

/-- A three-bar dataframe, shorter than the lookback 12. -/
def df9 : DataFrame := mkDF [10, 10, 10] [] []

/-- A 49-row dataframe whose entry columns have a long and a short entry
signal at bar 0: used to witness the exit-scheduling theorem. -/
def dfC1 : DataFrame := mkDF (List.replicate 49 0) [1] [1]

end MomentumRank

namespace MomentumRank

/- ### The claims -/

/-- C1: with `HOLDING_PERIOD = 1` and `timeframe = "30m"` the holding
period is 48 bars, and `populate_exit_trend` sets `exit_long` to 1 at bar
`i` if and only if `i >= 48` and `enter_long` was 1 at bar `i - 48`,
symmetrically for `exit_short` from `enter_short`; the exit columns have
exactly one row per bar, so exit signals are set at no other bars. -/
theorem C1_holding_period_exit (df : DataFrame) (i : ℕ) (hi : i < df.numRows) :
    holding_periods_of HOLDING_PERIOD timeframe = 48 ∧
    ((populate_exit_trend HOLDING_PERIOD timeframe df).exit_long.getD i 0 = 1 ↔
      48 ≤ i ∧ df.enter_long.getD (i - 48) 0 = 1) ∧
    ((populate_exit_trend HOLDING_PERIOD timeframe df).exit_short.getD i 0 = 1 ↔
      48 ≤ i ∧ df.enter_short.getD (i - 48) 0 = 1) ∧
    (populate_exit_trend HOLDING_PERIOD timeframe df).exit_long.length = df.numRows ∧
    (populate_exit_trend HOLDING_PERIOD timeframe df).exit_short.length = df.numRows := by
  have h48 : holding_periods_of HOLDING_PERIOD timeframe = 48 := by decide
  refine ⟨h48, ?_, ?_, ?_, ?_⟩
  · rw [populate_exit_trend, h48, exit_long_value 48 df hi]
    split
    · rename_i hcon; exact iff_of_true rfl hcon
    · rename_i hcon; exact iff_of_false (by decide) hcon
  · rw [populate_exit_trend, h48, exit_short_value 48 df hi]
    split
    · rename_i hcon; exact iff_of_true rfl hcon
    · rename_i hcon; exact iff_of_false (by decide) hcon
  · rw [populate_exit_trend, exit_long_col]; simp
  · rw [populate_exit_trend, exit_short_col]; simp

/-- Witness for C1 at a concrete 49-row dataframe with entry signals at
bar 0: the exit signals appear at bar 48. -/
theorem C1_witness :
    (populate_exit_trend HOLDING_PERIOD timeframe dfC1).exit_long.getD 48 0 = 1 ∧
    (populate_exit_trend HOLDING_PERIOD timeframe dfC1).exit_short.getD 48 0 = 1 := by
  have h := C1_holding_period_exit dfC1 48 (by decide)
  exact ⟨h.2.1.mpr (by decide), h.2.2.1.mpr (by decide)⟩

/-- C2: for every bar and universe, `|top_n| <= N` and `|bottom_n| <= N`
(for the slice semantics this needs `N >= 1`; the strategy uses `N = 2`),
and when at least `2N` instruments are ranked the two selections are
disjoint (the whitelist holds distinct instrument identifiers). -/
theorem C2_top_bottom_bounds (snap : Snapshot) (L N i : ℕ) (hN : 1 ≤ N)
    (hnd : snap.current_whitelist.Nodup) :
    (top_n snap L N i).length ≤ N ∧ (bottom_n snap L N i).length ≤ N ∧
    (2 * N ≤ (all_pairs_momentum snap L i).length →
      ∀ p, p ∈ top_n snap L N i → p ∉ bottom_n snap L N i) := by
  refine ⟨?_, ?_, ?_⟩
  · rw [top_n, List.length_map, List.length_take]
    exact Nat.min_le_left _ _
  · rw [bottom_n, List.length_map]
    exact lastSlice_length_le hN
  · intro h2 p ht
    have hlen : 2 * N ≤ (sorted_pairs snap L i).length := by
      rw [sorted_pairs, (sortDesc_perm (all_pairs_momentum snap L i)).length_eq]
      exact h2
    exact disjoint_take_lastSlice (nodup_ranking_keys snap L i hnd) hlen ht

/-- Witness for C2 on the concrete four-instrument universe at bar 2 with
N = 1: both selections have at most one element and A, the top
instrument, is not in the bottom selection. -/
theorem C2_witness :
    (top_n scen3 2 1 2).length ≤ 1 ∧ (bottom_n scen3 2 1 2).length ≤ 1 ∧
    ¬("A" ∈ top_n scen3 2 1 2 ∧ "A" ∈ bottom_n scen3 2 1 2) := by
  have h := C2_top_bottom_bounds scen3 2 1 2 (by norm_num) (by decide)
  have h2 : 2 * 1 ≤ (all_pairs_momentum scen3 2 2).length := by
    rw [scen3_apm2]; norm_num
  exact ⟨h.1, h.2.1, fun hc => h.2.2 h2 "A" hc.1 hc.2⟩

/-- Counterexample to C3: at bar 2 with lookback 2 the code compares the
close at index 2 with the close at index 0 (not index 1, which the spec's
arithmetic silently used), so B's momentum is 0 (not about -9.09), D's is
-10 (not 0), the bottom selection is D (not B), B gets no short entry at
bar 2, and B gets no short exit at bar 4. -/
theorem C3_counterexample :
    momentum_at scen3 2 2 "B" = PyFloat.finite 0 ∧
    momentum_at scen3 2 2 "D" = PyFloat.finite (-10) ∧
    PyFloat.finite (-10) ≠ PyFloat.finite 0 ∧
    bottom_n scen3 2 1 2 = ["D"] ∧ (["D"] : List String) ≠ ["B"] ∧
    (populate_entry_trend scen3 2 1 "B" dfB3).enter_short.getD 2 0 = 0 ∧
    (exit_signals 2 (populate_entry_trend scen3 2 1 "B" dfB3)).exit_short.getD 4 0 = 0 := by
  have hB2 : (populate_entry_trend scen3 2 1 "B" dfB3).enter_short.getD 2 0 = 0 := by
    rw [enter_short_value scen3 2 1 "B" dfB3 (by decide), scen3_bot2]
    simp
  refine ⟨?_, ?_, by decide, scen3_bot2, by decide, hB2, ?_⟩
  · rw [momentum_at, scen3B]; norm_num [momentumVal]
  · rw [momentum_at, scen3D]; norm_num [momentumVal]
  · rw [exit_short_value 2 _ (by decide)]
    refine if_neg (fun hcon => ?_)
    have h2 := hcon.2
    rw [hB2] at h2
    exact absurd h2 (by decide)

/-- C3 as the code computes it: at bar 2 (closes compared between indices
2 and 0) the momenta are A = 20, B = 0, C = 0, D = -10; the selection is
top_1 = [A], bottom_1 = [D]; A gets a long entry and D a short entry at
bar 2; and with a 2-bar holding period A gets a long exit and D a short
exit at bar 4. -/
theorem C3_amended_scenario :
    momentum_at scen3 2 2 "A" = PyFloat.finite 20 ∧
    momentum_at scen3 2 2 "B" = PyFloat.finite 0 ∧
    momentum_at scen3 2 2 "C" = PyFloat.finite 0 ∧
    momentum_at scen3 2 2 "D" = PyFloat.finite (-10) ∧
    top_n scen3 2 1 2 = ["A"] ∧ bottom_n scen3 2 1 2 = ["D"] ∧
    (populate_entry_trend scen3 2 1 "A" dfA3).enter_long.getD 2 0 = 1 ∧
    (populate_entry_trend scen3 2 1 "D" dfD3).enter_short.getD 2 0 = 1 ∧
    (exit_signals 2 (populate_entry_trend scen3 2 1 "A" dfA3)).exit_long.getD 4 0 = 1 ∧
    (exit_signals 2 (populate_entry_trend scen3 2 1 "D" dfD3)).exit_short.getD 4 0 = 1 := by
  have hA2 : (populate_entry_trend scen3 2 1 "A" dfA3).enter_long.getD 2 0 = 1 := by
    rw [enter_long_value scen3 2 1 "A" dfA3 (by decide), scen3_top2]
    simp
  have hD2 : (populate_entry_trend scen3 2 1 "D" dfD3).enter_short.getD 2 0 = 1 := by
    rw [enter_short_value scen3 2 1 "D" dfD3 (by decide), scen3_bot2]
    simp
  refine ⟨?_, ?_, ?_, ?_, scen3_top2, scen3_bot2, hA2, hD2, ?_, ?_⟩
  · rw [momentum_at, scen3A]; norm_num [momentumVal]
  · rw [momentum_at, scen3B]; norm_num [momentumVal]
  · rw [momentum_at, scen3C]; norm_num [momentumVal]
  · rw [momentum_at, scen3D]; norm_num [momentumVal]
  · rw [exit_long_value 2 _ (by decide)]
    exact if_pos ⟨by norm_num, hA2⟩
  · rw [exit_short_value 2 _ (by decide)]
    exact if_pos ⟨by norm_num, hD2⟩

/-- Counterexample to C4: in the concrete universe pair A is in the top
selection at bar 2 and again at bar 3 (it is not newly selected at bar 3),
yet `populate_entry_trend` writes `enter_long = 1` at bar 3 as well. -/
theorem C4_counterexample :
    "A" ∈ top_n scen3 2 1 2 ∧ "A" ∈ top_n scen3 2 1 3 ∧
    (populate_entry_trend scen3 2 1 "A" dfA3).enter_long.getD 2 0 = 1 ∧
    (populate_entry_trend scen3 2 1 "A" dfA3).enter_long.getD 3 0 = 1 := by
  refine ⟨by rw [scen3_top2]; simp, by rw [scen3_top3]; simp, ?_, ?_⟩
  · rw [enter_long_value scen3 2 1 "A" dfA3 (by decide), scen3_top2]; simp
  · rw [enter_long_value scen3 2 1 "A" dfA3 (by decide), scen3_top3]; simp

/-- C4 as the code behaves: an entry signal is written at bar `i` exactly
when the instrument is selected at bar `i`, independently of whether it was
already selected at earlier bars, so an instrument that stays selected
receives an entry signal at every such bar. -/
theorem C4_entry_iff_selected (snap : Snapshot) (L N : ℕ) (pair : String)
    (df : DataFrame) (i : ℕ) (hi : i < df.numRows) :
    ((populate_entry_trend snap L N pair df).enter_long.getD i 0 = 1 ↔
      L ≤ i ∧ pair ∈ top_n snap L N i) ∧
    ((populate_entry_trend snap L N pair df).enter_short.getD i 0 = 1 ↔
      L ≤ i ∧ pair ∈ bottom_n snap L N i) := by
  constructor
  · rw [enter_long_value snap L N pair df hi]
    split
    · rename_i hcon; exact iff_of_true rfl hcon
    · rename_i hcon; exact iff_of_false (by decide) hcon
  · rw [enter_short_value snap L N pair df hi]
    split
    · rename_i hcon; exact iff_of_true rfl hcon
    · rename_i hcon; exact iff_of_false (by decide) hcon

/-- Witness for C4 at the concrete universe, bar 3. -/
theorem C4_witness :
    (populate_entry_trend scen3 2 1 "A" dfA3).enter_long.getD 3 0 = 1 ∧
    (populate_entry_trend scen3 2 1 "A" dfA3).enter_short.getD 3 0 = 0 := by
  have h := C4_entry_iff_selected scen3 2 1 "A" dfA3 3 (by decide)
  constructor
  · exact h.1.mpr ⟨by norm_num, by rw [scen3_top3]; simp⟩
  · rw [enter_short_value scen3 2 1 "A" dfA3 (by decide)]
    refine if_neg (fun hcon => ?_)
    have h2 := hcon.2
    rw [scen3_bot3] at h2
    simp at h2

/-- Counterexample to C5: with a one-instrument universe and N = 2 the
instrument A is in both selections at bar 2, and the code sets both
`enter_long` and `enter_short` there (no long-over-short priority). -/
theorem C5_counterexample :
    "A" ∈ top_n scen5 2 2 2 ∧ "A" ∈ bottom_n scen5 2 2 2 ∧
    (populate_entry_trend scen5 2 2 "A" dfA5).enter_long.getD 2 0 = 1 ∧
    (populate_entry_trend scen5 2 2 "A" dfA5).enter_short.getD 2 0 = 1 := by
  refine ⟨by rw [scen5_top2]; simp, by rw [scen5_bot2]; simp, ?_, ?_⟩
  · rw [enter_long_value scen5 2 2 "A" dfA5 (by decide), scen5_top2]; simp
  · rw [enter_short_value scen5 2 2 "A" dfA5 (by decide), scen5_bot2]; simp

/-- C5 as the code behaves: the two membership tests are independent, so an
instrument that appears in both the top and the bottom selection at bar `i`
receives both `enter_long` and `enter_short` there. -/
theorem C5_overlap_both_signals (snap : Snapshot) (L N : ℕ) (pair : String)
    (df : DataFrame) (i : ℕ) (hi : i < df.numRows) (hL : L ≤ i)
    (ht : pair ∈ top_n snap L N i) (hb : pair ∈ bottom_n snap L N i) :
    (populate_entry_trend snap L N pair df).enter_long.getD i 0 = 1 ∧
    (populate_entry_trend snap L N pair df).enter_short.getD i 0 = 1 := by
  rw [enter_long_value snap L N pair df hi, enter_short_value snap L N pair df hi,
    if_pos ⟨hL, ht⟩, if_pos ⟨hL, hb⟩]
  exact ⟨rfl, rfl⟩

/-- Witness for C5 on the one-instrument universe. -/
theorem C5_witness :
    (populate_entry_trend scen5 2 2 "A" dfA5).enter_long.getD 2 0 = 1 ∧
    (populate_entry_trend scen5 2 2 "A" dfA5).enter_short.getD 2 0 = 1 :=
  C5_overlap_both_signals scen5 2 2 "A" dfA5 2 (by decide) (by norm_num)
    (by rw [scen5_top2]; simp) (by rw [scen5_bot2]; simp)

end MomentumRank

namespace MomentumRank

/-- Counterexample to C6: pair X has close 0 at the lookback index of bar 2
and close 10 at bar 2, so its momentum is +inf, not a NaN-like
non-comparable value; X is not excluded from the ranking: it sorts first,
is selected into the top slot, and even receives a long entry. -/
theorem C6_counterexample :
    momentum_at scen6 2 2 "X" = PyFloat.pinf ∧ PyFloat.pinf ≠ PyFloat.nan ∧
    "X" ∈ (sorted_pairs scen6 2 2).map Prod.fst ∧
    "X" ∈ top_n scen6 2 1 2 ∧
    (populate_entry_trend scen6 2 1 "X" dfX6).enter_long.getD 2 0 = 1 := by
  refine ⟨?_, by decide, ?_, by rw [scen6_top2]; simp, ?_⟩
  · rw [momentum_at, scen6X]; norm_num [momentumVal]
  · rw [scen6_sorted2]; simp
  · rw [enter_long_value scen6 2 1 "X" dfX6 (by decide), scen6_top2]; simp

/-- C6 as the code behaves: a zero lookback close with a nonzero current
close makes the momentum an infinity (NaN arises only when both are zero);
no exception is raised, and the instrument is not excluded from the
ranking: the only exclusion test is data availability, so it stays among
the ranked instruments. -/
theorem C6_zero_denominator_not_excluded (snap : Snapshot) (L i : ℕ) (p : String)
    (hmem : p ∈ snap.current_whitelist) (hlen : i < (snap.closes p).length)
    (hb : (snap.closes p).getD (i - L) 0 = 0) (ha : (snap.closes p).getD i 0 ≠ 0) :
    (momentum_at snap L i p = PyFloat.pinf ∨ momentum_at snap L i p = PyFloat.ninf) ∧
    p ∈ (sorted_pairs snap L i).map Prod.fst := by
  constructor
  · rw [momentum_at, momentumVal, if_pos hb, if_neg ha]
    split
    · exact Or.inl rfl
    · exact Or.inr rfl
  · exact (mem_ranking_iff snap L i p).mpr ⟨hmem, hlen⟩

/-- Witness for C6 at the concrete universe: X has a zero lookback close at
bar 2 and is still ranked. -/
theorem C6_witness :
    (momentum_at scen6 2 2 "X" = PyFloat.pinf ∨ momentum_at scen6 2 2 "X" = PyFloat.ninf) ∧
    "X" ∈ (sorted_pairs scen6 2 2).map Prod.fst :=
  C6_zero_denominator_not_excluded scen6 2 2 "X" (by decide) (by decide)
    (by decide) (by decide)

/-- C7 (no lookahead): two provider snapshots with the same whitelist that
agree, for every whitelisted pair, on all close bars up to index `i`
(and hence on which pairs have at least `i + 1` bars) produce the same
entry signals at bar `i`, for any two current-pair dataframes in which bar
`i` exists. -/
theorem C7_no_lookahead (s1 s2 : Snapshot) (L N : ℕ) (pair : String)
    (df1 df2 : DataFrame) (i : ℕ)
    (hu : s1.current_whitelist = s2.current_whitelist)
    (hc : ∀ p ∈ s1.current_whitelist,
      (s1.closes p).take (i + 1) = (s2.closes p).take (i + 1))
    (h1 : i < df1.numRows) (h2 : i < df2.numRows) :
    (populate_entry_trend s1 L N pair df1).enter_long.getD i 0
      = (populate_entry_trend s2 L N pair df2).enter_long.getD i 0 ∧
    (populate_entry_trend s1 L N pair df1).enter_short.getD i 0
      = (populate_entry_trend s2 L N pair df2).enter_short.getD i 0 := by
  have hapm := apm_take_agree s1 s2 L i hu hc
  have htop : top_n s1 L N i = top_n s2 L N i := by
    rw [top_n, top_n, sorted_pairs, sorted_pairs, hapm]
  have hbot : bottom_n s1 L N i = bottom_n s2 L N i := by
    rw [bottom_n, bottom_n, sorted_pairs, sorted_pairs, hapm]
  rw [enter_long_value s1 L N pair df1 h1, enter_long_value s2 L N pair df2 h2,
    enter_short_value s1 L N pair df1 h1, enter_short_value s2 L N pair df2 h2,
    htop, hbot]
  exact ⟨rfl, rfl⟩

/-- Witness for C7: two snapshots that agree up to bar 2 but differ at bar
3 give the same signals at bar 2. -/
theorem C7_witness :
    (populate_entry_trend snap7a 2 1 "A" df7a).enter_long.getD 2 0
      = (populate_entry_trend snap7b 2 1 "A" df7b).enter_long.getD 2 0 ∧
    (populate_entry_trend snap7a 2 1 "A" df7a).enter_short.getD 2 0
      = (populate_entry_trend snap7b 2 1 "A" df7b).enter_short.getD 2 0 :=
  C7_no_lookahead snap7a snap7b 2 1 "A" df7a df7b 2 rfl
    (by
      intro p hp
      have hp2 : p ∈ ["A"] := hp
      have hpA : p = "A" := by simpa using hp2
      subst hpA
      decide)
    (by decide) (by decide)

/-- C8: at every bar `i >= L` the ranking holds exactly the whitelisted
instruments whose series has at least `i + 1` bars; instruments with fewer
bars are absent from the ranking altogether (they are not given a momentum
of zero, and nothing fails). -/
theorem C8_ranking_membership (snap : Snapshot) (L i : ℕ) (p : String) (hL : L ≤ i) :
    p ∈ (sorted_pairs snap L i).map Prod.fst ↔
      p ∈ snap.current_whitelist ∧ i + 1 ≤ (snap.closes p).length :=
  mem_ranking_iff snap L i p

/-- Witness for C8: in the concrete universe at bar 2 pair A is ranked and
the equivalence holds. -/
theorem C8_witness :
    2 ≤ 2 ∧
    ("A" ∈ (sorted_pairs scen3 2 2).map Prod.fst ↔
      "A" ∈ scen3.current_whitelist ∧ 2 + 1 ≤ (scen3.closes "A").length) :=
  ⟨by norm_num, C8_ranking_membership scen3 2 2 "A" (by norm_num)⟩

/-- C9: at every bar `i` below the lookback 12 the momentum column holds
NaN and neither entry signal is set; when the whole series has at most 12
rows, every entry value of both columns is 0. -/
theorem C9_warmup_bars (snap : Snapshot) (pair : String) (df : DataFrame) (i : ℕ)
    (hi : i < df.numRows) (hL : i < LOOKBACK_PERIOD) :
    (populate_indicators LOOKBACK_PERIOD df).momentum[i]? = some PyFloat.nan ∧
    (populate_entry_trend snap LOOKBACK_PERIOD TOP_N pair df).enter_long.getD i 0 = 0 ∧
    (populate_entry_trend snap LOOKBACK_PERIOD TOP_N pair df).enter_short.getD i 0 = 0 ∧
    (df.numRows ≤ LOOKBACK_PERIOD →
      (∀ v ∈ (populate_entry_trend snap LOOKBACK_PERIOD TOP_N pair df).enter_long, v = 0) ∧
      (∀ v ∈ (populate_entry_trend snap LOOKBACK_PERIOD TOP_N pair df).enter_short, v = 0)) := by
  refine ⟨?_, ?_, ?_, ?_⟩
  · rw [momentum_value LOOKBACK_PERIOD df hi, if_pos hL]
  · rw [enter_long_value snap LOOKBACK_PERIOD TOP_N pair df hi]
    exact if_neg (fun hcon => absurd hcon.1 (Nat.not_le.mpr hL))
  · rw [enter_short_value snap LOOKBACK_PERIOD TOP_N pair df hi]
    exact if_neg (fun hcon => absurd hcon.1 (Nat.not_le.mpr hL))
  · intro hn
    constructor
    · intro v hv
      rw [enter_long_col] at hv
      obtain ⟨j, hj, hval⟩ := List.mem_map.mp hv
      have hjn : j < df.numRows := List.mem_range.mp hj
      rw [if_neg (fun hcon => absurd hcon.1 (by omega))] at hval
      exact hval.symm
    · intro v hv
      rw [enter_short_col] at hv
      obtain ⟨j, hj, hval⟩ := List.mem_map.mp hv
      have hjn : j < df.numRows := List.mem_range.mp hj
      rw [if_neg (fun hcon => absurd hcon.1 (by omega))] at hval
      exact hval.symm

/-- Witness for C9 on a three-bar dataframe at bar 2. -/
theorem C9_witness :
    (populate_indicators LOOKBACK_PERIOD df9).momentum[2]? = some PyFloat.nan ∧
    (populate_entry_trend snap9 LOOKBACK_PERIOD TOP_N "A" df9).enter_long.getD 2 0 = 0 ∧
    (populate_entry_trend snap9 LOOKBACK_PERIOD TOP_N "A" df9).enter_short.getD 2 0 = 0 := by
  have h := C9_warmup_bars snap9 "A" df9 2 (by decide) (by decide)
  exact ⟨h.1, h.2.1, h.2.2.1⟩

/-- C10 (frame property of `populate_exit_trend`): every pre-existing
column and the row count are unchanged; only the two exit columns are
written, they have one row per bar, and every value written is 0 or 1. -/
theorem C10_exit_trend_frame (days : ℕ) (tf : String) (df : DataFrame) :
    (populate_exit_trend days tf df).open_col = df.open_col ∧
    (populate_exit_trend days tf df).high = df.high ∧
    (populate_exit_trend days tf df).low = df.low ∧
    (populate_exit_trend days tf df).close = df.close ∧
    (populate_exit_trend days tf df).volume = df.volume ∧
    (populate_exit_trend days tf df).momentum = df.momentum ∧
    (populate_exit_trend days tf df).enter_long = df.enter_long ∧
    (populate_exit_trend days tf df).enter_short = df.enter_short ∧
    (populate_exit_trend days tf df).numRows = df.numRows ∧
    (populate_exit_trend days tf df).exit_long.length = df.numRows ∧
    (populate_exit_trend days tf df).exit_short.length = df.numRows ∧
    (∀ v ∈ (populate_exit_trend days tf df).exit_long, v = 0 ∨ v = 1) ∧
    (∀ v ∈ (populate_exit_trend days tf df).exit_short, v = 0 ∨ v = 1) := by
  refine ⟨rfl, rfl, rfl, rfl, rfl, rfl, rfl, rfl, rfl, ?_, ?_, ?_, ?_⟩
  · rw [populate_exit_trend, exit_long_col]; simp
  · rw [populate_exit_trend, exit_short_col]; simp
  · intro v hv
    rw [populate_exit_trend, exit_long_col] at hv
    obtain ⟨j, hj, hval⟩ := List.mem_map.mp hv
    rw [← hval]
    split
    · exact Or.inr rfl
    · exact Or.inl rfl
  · intro v hv
    rw [populate_exit_trend, exit_short_col] at hv
    obtain ⟨j, hj, hval⟩ := List.mem_map.mp hv
    rw [← hval]
    split
    · exact Or.inr rfl
    · exact Or.inl rfl

end MomentumRank
